import Mathlib

set_option maxHeartbeats 1000000

/-!
Shallow embedding of the request-batching and result-dispatch engine of
terraform-provider-cscdm (Go package cscdm), together with proofs of the
properties its specification states about it.

Conventions of the embedding:
* Go strings are Lean String values; Go byte slices do not occur in the
  modelled code paths.
* Go slices of records are Lean lists; a function that can return a nil
  slice as a sentinel (GetRecordsByType) returns an Option so that the
  callers' nil test is the none test.
* Go maps keyed by strings are association lists with unique keys.
* Network I/O is modelled by passing the sequence of backend responses a
  loop would observe as an explicit list; a loop that would keep polling
  past the end of the supplied responses returns a "still retrying"
  outcome rather than an error.
* Channel state is modelled by a Slot record counting writes and recording
  closedness; the mutex-guarded map operations of the source become atomic
  state transitions.
-/

/-! ## Data model (record.go / the unnamed record source file) -/

/-- Embedding of the Go struct ZoneRecord: one concrete DNS record as
returned by the backend. -/
structure ZoneRecord where
  Id : String
  Key : String
  Value : String
  Ttl : Int
  Priority : Int
  Status : String
deriving Repr, DecidableEq

/-- Embedding of the Go struct ZoneSrvRecord (ZoneRecord plus a port). -/
structure ZoneSrvRecord where
  base : ZoneRecord
  Port : Int
deriving Repr, DecidableEq

/-- Embedding of the Go struct ZoneSoaRecord. -/
structure ZoneSoaRecord where
  Serial : Int
  Refresh : Int
  Retry : Int
  Expire : Int
  TtlMin : Int
  TtlNeg : Int
  TtlZone : Int
  TechEmail : String
  MasterHost : String
deriving Repr, DecidableEq

/-- Embedding of the Go struct Zone: a snapshot of a remote zone with its
typed record lists and SOA metadata. -/
structure Zone where
  ZoneName : String
  HostingType : String
  A : List ZoneRecord
  CNAME : List ZoneRecord
  AAAA : List ZoneRecord
  TXT : List ZoneRecord
  MX : List ZoneRecord
  NS : List ZoneRecord
  SRV : List ZoneSrvRecord
  CAA : List ZoneRecord
  SOA : ZoneSoaRecord
deriving Repr, DecidableEq

/-- Embedding of the Go struct ZoneEdit: one edit entry in a batched
per-zone edit request. -/
structure ZoneEdit where
  RecordType : String
  Action : String
  CurrentKey : String
  CurrentValue : String
  CurrentTtl : Int
  CurrentPriority : Int
  NewKey : String
  NewValue : String
  NewTtl : Int
  NewPriority : Int
deriving Repr, DecidableEq

/-- Embedding of the method ZoneEdit.KeyId: the derived identity key of an
edit is NewKey for ADD and EDIT actions and CurrentKey otherwise. -/
def ZoneEdit.KeyId (ze : ZoneEdit) : String :=
  if ze.Action = "ADD" ∨ ze.Action = "EDIT" then ze.NewKey else ze.CurrentKey

/-- Embedding of the method ZoneEdit.ValueId: the derived identity value of
an edit is NewValue for ADD and EDIT actions and CurrentValue otherwise. -/
def ZoneEdit.ValueId (ze : ZoneEdit) : String :=
  if ze.Action = "ADD" ∨ ze.Action = "EDIT" then ze.NewValue else ze.CurrentValue

/-- Embedding of the Go struct RecordAction: a ZoneEdit together with the
zone it applies to. -/
structure RecordAction where
  edit : ZoneEdit
  ZoneName : String
deriving Repr, DecidableEq

/-- Embedding of the Go struct ZoneEditErr: the decoded body of an
unsuccessful backend response. -/
structure ZoneEditErr where
  Code : String
  Description : String
  Value : String
deriving Repr, DecidableEq

/-- Embedding of the Go struct ZoneEditRes with its two nested anonymous
structs flattened: the decoded body of a successful edit submission. -/
structure ZoneEditRes where
  ContentStatus : String
  ContentMessage : String
  LinksSelf : String
  LinksStatus : String
deriving Repr, DecidableEq

/-! ## Go string splitting

The routing code parses correlation ids with strings.Split(id, ":") and
builds status ids by taking the last element of strings.Split on "/".
goSplitChars is the Go semantics of splitting on a one-character separator:
it always returns a non-empty list, and splitting the empty string yields
one empty field. -/

/-- Semantics of the Go strings.Split on a single-character separator,
on the character list of the string. -/
def goSplitChars (sep : Char) : List Char → List (List Char)
  | [] => [[]]
  | c :: rest =>
    if c = sep then [] :: goSplitChars sep rest
    else
      match goSplitChars sep rest with
      | [] => [[c]]
      | h :: t => (c :: h) :: t

/-- Semantics of the Go strings.Split on a single-character separator. -/
def goSplit (sep : Char) (s : String) : List String :=
  (goSplitChars sep s.data).map (fun cs => String.mk cs)

/-- The Go expression strings.Split(s, ":")[0]. -/
def idPart0 (s : String) : String := (goSplit ':' s).headD ""

/-- The Go expression strings.Split(s, ":")[1] (total via a default, as in
the source every correlation id has four fields). -/
def idPart1 (s : String) : String := (goSplit ':' s).getD 1 ""

/-- The Go expression taking the last element of strings.Split(s, "/"),
used to extract the edit id from the status link. -/
def lastSlashSegment (s : String) : String := (goSplit '/' s).getLastD ""

/-- Embedding of the method Client.genId: the correlation key
zone:recordType:key:value. -/
def genId (zone recordType key value : String) : String :=
  zone ++ ":" ++ recordType ++ ":" ++ key ++ ":" ++ value

/-! ## Zone lookups (GetRecordsByType and friends) -/

/-- Embedding of Client.GetRecordsByType: the switch over the record type
returns the zone's list for the six supported types and nil (none)
otherwise. -/
def GetRecordsByType (zone : Zone) (recordType : String) : Option (List ZoneRecord) :=
  if recordType = "A" then some zone.A
  else if recordType = "AAAA" then some zone.AAAA
  else if recordType = "CNAME" then some zone.CNAME
  else if recordType = "MX" then some zone.MX
  else if recordType = "NS" then some zone.NS
  else if recordType = "TXT" then some zone.TXT
  else none

/-- Embedding of Client.GetRecordByKey: first record whose Key matches. -/
def GetRecordByKey (records : List ZoneRecord) (key : String) : Option ZoneRecord :=
  records.find? (fun record => record.Key == key)

/-- Embedding of Client.GetRecordById: first record whose Id matches. -/
def GetRecordById (records : List ZoneRecord) (id : String) : Option ZoneRecord :=
  records.find? (fun record => record.Id == id)

/-- An ASCII single-quote character as a string, used verbatim in two error
messages of the source. -/
def squote : String := String.singleton (Char.ofNat 39)

/-- Embedding of Client.GetRecordByTypeByKey: unsupported types fail with
the unsupported record type error; a missing key fails with a not-found
error naming the type, key and zone. -/
def GetRecordByTypeByKey (zone : Zone) (recordType : String) (key : String) :
    Except String ZoneRecord :=
  match GetRecordsByType zone recordType with
  | none => .error ("unsupported record type: " ++ recordType)
  | some records =>
    match GetRecordByKey records key with
    | none => .error ("record of type " ++ recordType ++ " with key " ++ squote ++ key
        ++ squote ++ " was not found in zone " ++ zone.ZoneName)
    | some record => .ok record

/-- Embedding of Client.GetRecordsByKeys: build the set of wanted keys,
then walk the records inserting each record whose key is wanted into a map
keyed by record key, later records overwriting earlier ones, as Go map
assignment does. The association list plays the role of the Go map; its
entry order stands for one arbitrary Go map iteration order. insertRecord
is the loop body: the Go map assignment for one record whose key is
wanted. -/
def insertRecord (keys : List String) (recordMap : List (String × ZoneRecord))
    (record : ZoneRecord) : List (String × ZoneRecord) :=
  if keys.contains record.Key then
    (record.Key, record) :: recordMap.filter (fun p => p.1 ≠ record.Key)
  else recordMap

/-- The loop of Client.GetRecordsByKeys over the records, with insertRecord
as its body. -/
def GetRecordsByKeys (records : List ZoneRecord) (keys : List String) :
    List (String × ZoneRecord) :=
  records.foldl (insertRecord keys) []

/-! ## editZone: batch submission with conflict backoff (the unnamed
record source file, lines 262-299) -/

/-- One backend response to the POST zones/edits submission, as the
submission loop observes it: a transport failure, a non-201 status whose
error body did or did not decode, or a 201 whose body did or did not
decode. -/
inductive EditPostResp where
  | sendFailure (msg : String)
  | non201 (decoded : Option ZoneEditErr)
  | ok201 (decoded : Option ZoneEditRes)
deriving Repr, DecidableEq

/-- Outcome of the editZone submission loop on a finite response sequence:
still retrying after consuming the whole sequence (with the number of
poll-interval sleeps taken), terminally failed, or created with the edit
id extracted from the status link. -/
inductive EditZoneOutcome where
  | retrying (sleeps : Nat)
  | failed (msg : String)
  | created (editId : String)
deriving Repr, DecidableEq

/-- Embedding of Client.editZone: loop over the responses; a non-201
response whose decoded error code is OPEN_ZONE_EDITS sleeps one poll
interval and retries; any other non-201 (or an undecodable body, or a
transport failure) is terminal; a 201 yields the edit id taken from the
last slash-segment of the status link. -/
def editZone : List EditPostResp → EditZoneOutcome
  | [] => .retrying 0
  | resp :: rest =>
    match resp with
    | .sendFailure m => .failed ("failed to send request: " ++ m)
    | .non201 none => .failed "unable to unmarshal create record error response"
    | .non201 (some e) =>
      if e.Code = "OPEN_ZONE_EDITS" then
        match editZone rest with
        | .retrying n => .retrying (n + 1)
        | o => o
      else .failed "request returned unsuccessful status code"
    | .ok201 none => .failed "unable to unmarshal create record response"
    | .ok201 (some res) => .created (lastSlashSegment res.LinksStatus)

/-! ## cancelZoneEdit and waitForZoneEdits (the unnamed record source
file, lines 301-329 and 416-439) -/

/-- The backend response to the DELETE zones/edits/{id} cancellation
request: transport failure, 204 success, or a non-204 whose error body did
or did not decode. -/
inductive CancelResp where
  | sendFailure (msg : String)
  | noContent204
  | errBody (decoded : Option ZoneEditErr)
deriving Repr, DecidableEq

/-- Embedding of Client.cancelZoneEdit: 204 succeeds; everything else is
an error. -/
def cancelZoneEdit : CancelResp → Except String Unit
  | .sendFailure m => .error ("unable to send request: " ++ m)
  | .noContent204 => .ok ()
  | .errBody none => .error "unable to unmarshal zone edit cancellation error"
  | .errBody (some e) =>
    .error ("failed to cancel zone edit: " ++ e.Code ++ ": " ++ e.Description
      ++ ": " ++ e.Value)

/-- One backend response to the GET zones/edits/status/{id} poll: transport
failure, undecodable body, or a decoded status string. -/
inductive PollResp where
  | sendFailure (msg : String)
  | malformed
  | statusVal (s : String)
deriving Repr, DecidableEq

/-- Outcome of the waitForZoneEdits polling loop on a finite response
sequence: still polling after consuming the whole sequence (with the
number of sleeps taken), or done with a result, recording whether a
cancellation of the edit was attempted on the way. -/
inductive WaitOutcome where
  | polling (sleeps : Nat)
  | done (result : Except String Unit) (cancelAttempted : Bool)
deriving Repr

/-- Embedding of Client.waitForZoneEdits: poll until COMPLETED (ok) or
FAILED; on FAILED, attempt to cancel the open edit (the single
cancellation response the backend would give is passed in) and return a
terminal error whether or not the cancellation succeeded; transport and
decode failures of the poll itself are terminal errors with no
cancellation attempt. -/
def waitForZoneEdits (cancelResp : CancelResp) : List PollResp → WaitOutcome
  | [] => .polling 0
  | resp :: rest =>
    match resp with
    | .sendFailure m => .done (.error ("failed to send request: " ++ m)) false
    | .malformed => .done (.error "unable to unmarshal edit status response") false
    | .statusVal s =>
      if s = "COMPLETED" then .done (.ok ()) false
      else if s = "FAILED" then
        match cancelZoneEdit cancelResp with
        | .error ce =>
          .done (.error ("zone edits returned status FAILED: failed to cancel zone edits: "
            ++ ce)) true
        | .ok _ =>
          .done (.error "zone edits returned status FAILED: successfully canceled zone edits") true
      else
        match waitForZoneEdits cancelResp rest with
        | .polling n => .polling (n + 1)
        | o => o

/-! ## The result router: correlation-keyed channel maps

The Client owns two maps, returnChannels and errorChannels, from
correlation ids to one-shot channels. Every mutation of the maps in the
source runs under returnChannelsMutex, so each becomes one atomic
transition of a RouterState. A Slot records what has happened to one
channel: how many values were sent on it and whether it was closed. -/

/-- State of one result or error channel: the number of values sent on it
and whether it has been closed. -/
structure Slot where
  writes : Nat
  closed : Bool
deriving Repr, DecidableEq

/-- A Go map from correlation id to channel, as an association list with
unique keys. -/
abbrev ChanMap := List (String × Slot)

/-- A channel slot as freshly created by enqueue: no writes, open. -/
def freshSlot : Slot := ⟨0, false⟩

/-- Deliver to every channel of the map whose id satisfies the predicate:
each matching entry leaves the map and its channel receives one write and
is closed. Returns the remaining map and the final states of the delivered
channels. This is the common shape of returnRecord (exact-id predicate on
the return map), returnError / returnErrorByIdWithoutLock (exact id on the
error map) and the two zone fan-outs (zone, or zone-and-type, predicates
on the error map); each runs under returnChannelsMutex in the source, so
it is one atomic transition here. -/
def sweepDeliver (p : String → Bool) (m : ChanMap) : ChanMap × List Slot :=
  (m.filter (fun q => !(p q.1)),
   (m.filter (fun q => p q.1)).map (fun q => ⟨q.2.writes + 1, true⟩))

/-- The combined channel-map state of the Client, together with the final
states of every channel that has left the maps (retired slots), so that
delivery counts over a whole history remain statable. -/
structure RouterState where
  returnChans : ChanMap
  errorChans : ChanMap
  retiredSlots : List Slot
deriving Repr

/-- The routing operations the source performs on the channel maps:
registration by enqueue, the four delivery helpers, and the defensive
clear at the end of a flush. -/
inductive RouterOp where
  | enqueueChans (id : String)
  | returnRecordOp (id : String)
  | returnErrorOp (id : String)
  | returnErrorToZoneOp (zone : String)
  | returnErrorToZoneTypeOp (zone : String) (recordType : String)
  | clearOp
deriving Repr, DecidableEq

/-- One atomic routing transition, following the source:
enqueueChans registers fresh channels under the id (Go map assignment
overwrites, so a previous binding for the same id is dropped from the map
and its channel, never written again, is retired as-is);
returnRecordOp removes the id's return channel and then writes and closes
it; returnErrorOp does the same on the error map (the source writes before
deleting, but holds the mutex throughout, so the map transition is the
same); returnErrorToZoneOp delivers to every error channel whose id has
the zone as its first colon-field; returnErrorToZoneTypeOp to every error
channel whose id has the zone and record type as its first two
colon-fields; clearOp closes every remaining channel of both maps and
empties them. -/
def applyRouterOp (st : RouterState) : RouterOp → RouterState
  | .enqueueChans id =>
    { returnChans := (id, freshSlot) :: st.returnChans.filter (fun p => !(p.1 == id)),
      errorChans := (id, freshSlot) :: st.errorChans.filter (fun p => !(p.1 == id)),
      retiredSlots := (st.returnChans.filter (fun p => p.1 == id)).map (fun p => p.2)
        ++ (st.errorChans.filter (fun p => p.1 == id)).map (fun p => p.2)
        ++ st.retiredSlots }
  | .returnRecordOp id =>
    let r := sweepDeliver (fun i => i == id) st.returnChans
    { st with returnChans := r.1, retiredSlots := r.2 ++ st.retiredSlots }
  | .returnErrorOp id =>
    let r := sweepDeliver (fun i => i == id) st.errorChans
    { st with errorChans := r.1, retiredSlots := r.2 ++ st.retiredSlots }
  | .returnErrorToZoneOp zone =>
    let r := sweepDeliver (fun i => idPart0 i == zone) st.errorChans
    { st with errorChans := r.1, retiredSlots := r.2 ++ st.retiredSlots }
  | .returnErrorToZoneTypeOp zone recordType =>
    let r := sweepDeliver (fun i => idPart0 i == zone && idPart1 i == recordType) st.errorChans
    { st with errorChans := r.1, retiredSlots := r.2 ++ st.retiredSlots }
  | .clearOp =>
    { returnChans := [], errorChans := [],
      retiredSlots := st.returnChans.map (fun p => ⟨p.2.writes, true⟩)
        ++ st.errorChans.map (fun p => ⟨p.2.writes, true⟩)
        ++ st.retiredSlots }

/-- Run a sequence of routing operations. -/
def runRouter (st : RouterState) (ops : List RouterOp) : RouterState :=
  ops.foldl applyRouterOp st

/-- The empty router state of a freshly configured client. -/
def initRouterState : RouterState := ⟨[], [], []⟩

/-- The at-most-once delivery invariant: channels still registered in a
map are unwritten and open, and every channel that ever left the maps was
written at most once and, if written, was closed. -/
def RouterInv (st : RouterState) : Prop :=
  (∀ p ∈ st.returnChans, p.2.writes = 0 ∧ p.2.closed = false) ∧
  (∀ p ∈ st.errorChans, p.2.writes = 0 ∧ p.2.closed = false) ∧
  (∀ s ∈ st.retiredSlots, s.writes ≤ 1 ∧ (s.writes = 1 → s.closed = true))

/-! ## Statement-order traces of the two delivery helpers

The at-most-once claim also asserts an ordering inside each helper: that
the map entry is removed before the channel is written. The traces below
transcribe the statement order of the source: returnRecord (record source
lines 331-347) deletes the map entry under the mutex and only then sends
and closes; returnErrorByIdWithoutLock (lines 349-359) sends on the
channel first, then deletes the map entry, then closes. -/

/-- A primitive event of a delivery helper on a registered id. -/
inductive ChanEvent where
  | deleteFromMap
  | writeChan
  | closeChan
deriving Repr, DecidableEq

/-- The events returnRecord performs on a registered id, in source order. -/
def returnRecordEvents : List ChanEvent := [.deleteFromMap, .writeChan, .closeChan]

/-- The events returnErrorByIdWithoutLock performs on a registered id, in
source order. -/
def returnErrorByIdEvents : List ChanEvent := [.writeChan, .deleteFromMap, .closeChan]

/-- The ordering the claim asserts of a delivery helper: the map entry is
removed strictly before the channel is written. -/
def removedBeforeWritten (evs : List ChanEvent) : Prop :=
  evs.indexOf ChanEvent.deleteFromMap < evs.indexOf ChanEvent.writeChan

/-- The ordering the claim asserts between write and close: the channel is
closed after (strictly later than) it is written. -/
def closedAfterWritten (evs : List ChanEvent) : Prop :=
  evs.indexOf ChanEvent.writeChan < evs.indexOf ChanEvent.closeChan

/-! ## Client state, enqueue, clear, PerformRecordAction -/

/-- The batching state of the Client: the action queue and the two channel
maps (with retired-slot history). -/
structure ClientState where
  recordActionQueue : List RecordAction
  chans : RouterState

/-- Embedding of Client.enqueue (batch.go): under both mutexes, append the
action to the queue and register the return and error channels under the
action's correlation id, then signal the flush scheduler. -/
def enqueue (st : ClientState) (ra : RecordAction) : ClientState :=
  { recordActionQueue := st.recordActionQueue ++ [ra],
    chans := applyRouterOp st.chans
      (.enqueueChans (genId ra.ZoneName ra.edit.RecordType ra.edit.KeyId ra.edit.ValueId)) }

/-- Embedding of Client.clear (batch.go): under both mutexes, drop the
queue, close every pending return channel and reset the return map, close
every pending error channel and reset the error map. -/
def clear (st : ClientState) : ClientState :=
  { recordActionQueue := [], chans := applyRouterOp st.chans .clearOp }

/-- A flush as the channel maps see it: the flush logic performs some
sequence of deliveries, and the deferred clear then closes and removes
whatever they did not resolve. -/
def flushWith (st : ClientState) (ops : List RouterOp) : ClientState :=
  clear { st with chans := runRouter st.chans ops }

/-- How the select of PerformRecordAction resolves: a record arrives on
the return channel (possibly nil, for a PURGE), the return channel is
closed without a value, an error arrives, or the error channel is closed
without a value. -/
inductive PerformEvent where
  | gotRecord (record : Option ZoneRecord)
  | returnChanClosed
  | gotError (msg : String)
  | errorChanClosed
deriving Repr

/-- Embedding of Client.PerformRecordAction (record source lines 110-127)
after the enqueue: the outcome of the select over the caller's two
channels. A delivered record is returned; a delivered error is returned
as the error; a channel closed without a value yields the descriptive
channel-closed diagnostic naming the action. -/
def PerformRecordAction (payload : RecordAction) : PerformEvent → Except String (Option ZoneRecord)
  | .gotRecord record => .ok record
  | .returnChanClosed =>
    .error ("return channel closed for " ++ payload.edit.RecordType ++ " "
      ++ payload.edit.KeyId ++ " in " ++ payload.ZoneName ++ ". CHECK TF WARN LOGS.")
  | .gotError msg => .error msg
  | .errorChanClosed =>
    .error ("error channel closed for " ++ payload.edit.RecordType ++ " "
      ++ payload.edit.KeyId ++ " in " ++ payload.ZoneName ++ ". CHECK TF WARN LOGS.")

/-! ## The flush scheduler loop (cscdm.go, flushLoop and triggerFlush) -/

/-- The three events the select of one flushLoop iteration can observe:
the coalesced trigger channel fires, the idle timer expires, or the stop
channel is closed. -/
inductive FlushEvent where
  | trigger
  | timerExpired
  | stopRequested
deriving Repr, DecidableEq

/-- What one iteration of the loop does with the timer it started, whether
it runs a flush, and whether the loop continues into another iteration
(with a fresh timer). -/
structure LoopIter where
  timerStopped : Bool
  flushed : Bool
  continues : Bool
deriving Repr, DecidableEq

/-- Embedding of one iteration of Client.flushLoop (cscdm.go lines
184-211): a trigger stops the timer, drains any duplicate signal and
continues the loop, which starts a fresh idle timer; timer expiry runs the
flush (whose error is only logged) and continues; a stop request stops the
timer and exits the loop. -/
def flushLoopIter : FlushEvent → LoopIter
  | .trigger => ⟨true, false, true⟩
  | .timerExpired => ⟨false, true, true⟩
  | .stopRequested => ⟨true, false, false⟩

/-- The number of flushes flushLoop runs over a sequence of observed
events, stopping at the first stop request. -/
def flushLoopRun : List FlushEvent → Nat
  | [] => 0
  | ev :: rest =>
    match ev with
    | .trigger => flushLoopRun rest
    | .timerExpired => flushLoopRun rest + 1
    | .stopRequested => 0

/-! ## Stop (cscdm.go lines 221-225) -/

/-- The stop-relevant state of a Client: whether flushLoopStopChan has
been closed and whether the stopOnce guard has already fired. -/
structure StopState where
  stopChanClosed : Bool
  stopOnceDone : Bool
deriving Repr, DecidableEq

/-- Closing a Go channel: panics if the channel is already closed. -/
def closeChan (alreadyClosed : Bool) : Except String Bool :=
  if alreadyClosed then .error "close of closed channel" else .ok true

/-- Embedding of Client.Stop: under the sync.Once guard, the first call
closes flushLoopStopChan and every later call does nothing. The sync.Once
serialises concurrent calls, so a concurrent execution is one of the
sequential interleavings modelled here. -/
def Stop (st : StopState) : Except String StopState :=
  if st.stopOnceDone then .ok st
  else
    match closeChan st.stopChanClosed with
    | .error e => .error e
    | .ok c => .ok { stopChanClosed := c, stopOnceDone := true }

/-- Iterate Stop, propagating a panic. -/
def stopTimes : Nat → StopState → Except String StopState
  | 0, st => .ok st
  | n + 1, st =>
    match Stop st with
    | .error e => .error e
    | .ok st1 => stopTimes n st1

/-- The stop state of a freshly configured client: channel open, guard not
yet fired. -/
def freshStopState : StopState := ⟨false, false⟩

/-! ## The per-type success routing of editZones (record source lines
219-242) -/

/-- A routing call the per-record-type success path of editZones makes: a
returnRecord addressed to one key (with the record's value as correlation
value), or the zone-and-type error fan-out. -/
inductive Delivery where
  | record (zone recordType key value : String) (rec : Option ZoneRecord)
  | errorZoneType (zone recordType msg : String)
deriving Repr, DecidableEq

/-- Embedding of the per-record-type success path of editZones: with the
freshly fetched zone's record list for this type (none when
GetRecordsByType returned nil), either fan the unsupported record type
error to the zone and type, or call returnRecord once for each entry of
GetRecordsByKeys. -/
def routeRecordsForType (zoneName recordType : String)
    (records : Option (List ZoneRecord)) (keys : List String) : List Delivery :=
  match records with
  | none => [.errorZoneType zoneName recordType ("unsupported record type: " ++ recordType)]
  | some records =>
    (GetRecordsByKeys records keys).map
      (fun kr => .record zoneName recordType kr.1 kr.2.Value (some kr.2))

/-- Whether a delivery resolves the pending request of the given key: a
returnRecord addressed to that key, or the zone-and-type error fan-out
(which reaches every pending request of the type, this key's included). -/
def resolvesKey (key : String) : Delivery → Bool
  | .record _ _ k _ _ => k == key
  | .errorZoneType _ _ _ => true

/-- The claim's reading of the per-type routing, stated in the claim's own
words for comparison with the source: every affected key receives some
delivery (its found record, or an unsupported-type error, or a lookup
failure). -/
def everyAffectedKeyResolved (zoneName recordType : String)
    (records : Option (List ZoneRecord)) (keys : List String) : Prop :=
  ∀ key ∈ keys,
    (routeRecordsForType zoneName recordType records keys).any (resolvesKey key) = true

/-! ## Concrete fixtures used by witnesses and counterexamples -/

/-- A concrete A record with key a. -/
def recA : ZoneRecord := ⟨"id-a", "a", "1.2.3.4", 300, 0, "ACTIVE"⟩

/-- A concrete zone snapshot holding recA and nothing else. -/
def zoneW : Zone :=
  { ZoneName := "example.com", HostingType := "PRIMARY",
    A := [recA], CNAME := [], AAAA := [], TXT := [], MX := [], NS := [],
    SRV := [], CAA := [], SOA := ⟨1, 2, 3, 4, 5, 6, 7, "te", "mh"⟩ }

/-- A concrete ADD edit. -/
def zeAdd : ZoneEdit := ⟨"A", "ADD", "", "", 0, 0, "a", "1.2.3.4", 300, 0⟩

/-- A concrete PURGE edit. -/
def zePurge : ZoneEdit := ⟨"A", "PURGE", "a", "1.2.3.4", 300, 0, "", "", 0, 0⟩

/-- A concrete record action wrapping zeAdd. -/
def raW : RecordAction := ⟨zeAdd, "example.com"⟩

/-- A decoded backend error body carrying the open-zone-edits conflict
code. -/
def errOpen : ZoneEditErr := ⟨"OPEN_ZONE_EDITS", "open zone edits", ""⟩

/-- A decoded backend error body carrying some other code. -/
def errOther : ZoneEditErr := ⟨"BAD_REQUEST", "bad request", ""⟩

/-- The correlation id of raW. -/
def idW : String := genId "example.com" "A" "a" "1.2.3.4"

/-- The correlation id of a pending request in an unrelated zone. -/
def idOther : String := genId "other.org" "TXT" "b" "x"

/-- A router state with one pending request in example.com and one in
other.org, both registered and undelivered. -/
def stC7 : RouterState :=
  ⟨[(idW, freshSlot), (idOther, freshSlot)],
   [(idW, freshSlot), (idOther, freshSlot)], []⟩

/-- A client state with raW enqueued and its channels registered. -/
def stW : ClientState :=
  ⟨[raW], ⟨[(idW, freshSlot)], [(idW, freshSlot)], []⟩⟩

/-! # Theorems -/

/-! ## C4: derived identity of an edit -/

/-- C4: for every ZoneEdit (and hence every RecordAction, which embeds
one), KeyId is NewKey when the action is ADD or EDIT and CurrentKey
otherwise (for instance PURGE); ValueId is analogously NewValue for
ADD/EDIT and CurrentValue otherwise. -/
theorem keyId_valueId_spec (ze : ZoneEdit) :
    ((ze.Action = "ADD" ∨ ze.Action = "EDIT") →
      ze.KeyId = ze.NewKey ∧ ze.ValueId = ze.NewValue) ∧
    (ze.Action ≠ "ADD" → ze.Action ≠ "EDIT" →
      ze.KeyId = ze.CurrentKey ∧ ze.ValueId = ze.CurrentValue) := by
  constructor
  · intro h
    rcases h with h | h <;> simp [ZoneEdit.KeyId, ZoneEdit.ValueId, h]
  · intro h1 h2
    simp [ZoneEdit.KeyId, ZoneEdit.ValueId, h1, h2]

/-- Witness for C4 at the concrete ADD edit zeAdd and the concrete PURGE
edit zePurge. -/
theorem keyId_valueId_spec_witness :
    (zeAdd.KeyId = zeAdd.NewKey ∧ zeAdd.ValueId = zeAdd.NewValue) ∧
    (zePurge.KeyId = zePurge.CurrentKey ∧ zePurge.ValueId = zePurge.CurrentValue) :=
  ⟨(keyId_valueId_spec zeAdd).1 (Or.inl rfl),
   (keyId_valueId_spec zePurge).2 (by decide) (by decide)⟩

/-! ## C10: GetRecordsByType serves exactly the six supported types -/

/-- C10: GetRecordsByType returns the zone's record list for exactly the
six types A, AAAA, CNAME, MX, NS and TXT and nil (none) for every other
type string, in particular for SRV and CAA, which exist in Zone snapshots
but are not servable; a record lookup naming such a type resolves to the
unsupported record type error. -/
theorem getRecordsByType_spec (zone : Zone) (t key : String)
    (hA : t ≠ "A") (hAAAA : t ≠ "AAAA") (hCNAME : t ≠ "CNAME")
    (hMX : t ≠ "MX") (hNS : t ≠ "NS") (hTXT : t ≠ "TXT") :
    GetRecordsByType zone "A" = some zone.A ∧
    GetRecordsByType zone "AAAA" = some zone.AAAA ∧
    GetRecordsByType zone "CNAME" = some zone.CNAME ∧
    GetRecordsByType zone "MX" = some zone.MX ∧
    GetRecordsByType zone "NS" = some zone.NS ∧
    GetRecordsByType zone "TXT" = some zone.TXT ∧
    GetRecordsByType zone t = none ∧
    GetRecordsByType zone "SRV" = none ∧
    GetRecordsByType zone "CAA" = none ∧
    GetRecordByTypeByKey zone "SRV" key = .error ("unsupported record type: SRV") ∧
    GetRecordByTypeByKey zone "CAA" key = .error ("unsupported record type: CAA") := by
  refine ⟨rfl, rfl, rfl, rfl, rfl, rfl, ?_, rfl, rfl, rfl, rfl⟩
  simp [GetRecordsByType, hA, hAAAA, hCNAME, hMX, hNS, hTXT]

/-- Witness for C10 at the concrete zone zoneW and the unsupported type
SRV. -/
theorem getRecordsByType_spec_witness :
    GetRecordsByType zoneW "A" = some zoneW.A ∧
    GetRecordsByType zoneW "AAAA" = some zoneW.AAAA ∧
    GetRecordsByType zoneW "CNAME" = some zoneW.CNAME ∧
    GetRecordsByType zoneW "MX" = some zoneW.MX ∧
    GetRecordsByType zoneW "NS" = some zoneW.NS ∧
    GetRecordsByType zoneW "TXT" = some zoneW.TXT ∧
    GetRecordsByType zoneW "SRV" = none ∧
    GetRecordsByType zoneW "SRV" = none ∧
    GetRecordsByType zoneW "CAA" = none ∧
    GetRecordByTypeByKey zoneW "SRV" "w" = .error ("unsupported record type: SRV") ∧
    GetRecordByTypeByKey zoneW "CAA" "w" = .error ("unsupported record type: CAA") :=
  getRecordsByType_spec zoneW "SRV" "w" (by decide) (by decide) (by decide)
    (by decide) (by decide) (by decide)

/-! ## C8: Stop is idempotent -/

/-- Helper: once the guard has fired and the channel is closed, Stop is
the identity and never panics. -/
theorem stopTimes_stopped (n : Nat) :
    stopTimes n ⟨true, true⟩ = .ok ⟨true, true⟩ := by
  induction n with
  | zero => rfl
  | succ n ih => simpa [stopTimes, Stop] using ih

/-- C8: any number of Stop calls on a freshly configured client succeeds
(no double close of the stop channel, hence no panic), and the state after
any number of calls is the state after the first call, so the second and
later calls leave the client unchanged. The sync.Once guard serialises
concurrent callers, so every concurrent execution is one of these
sequential iterations. -/
theorem stop_idempotent (n : Nat) :
    stopTimes (n + 1) freshStopState = .ok ⟨true, true⟩ ∧
    stopTimes (n + 1) freshStopState = stopTimes 1 freshStopState := by
  have h1 : stopTimes (n + 1) freshStopState = stopTimes n ⟨true, true⟩ := rfl
  rw [h1, stopTimes_stopped]
  exact ⟨rfl, rfl⟩

/-! ## C2: what an explicit trigger does to the flush loop -/

/-- C2 counterexample: on an explicit trigger in the Idle state, the loop
does not run a flush: the trigger case of the select only stops the idle
timer and continues, and a trigger followed directly by a stop request
runs zero flushes, while the claim asserts a flush runs immediately on the
trigger. -/
theorem flushTrigger_no_immediate_flush :
    (flushLoopIter FlushEvent.trigger).flushed = false ∧
    flushLoopRun [FlushEvent.trigger, FlushEvent.stopRequested] = 0 := by decide

/-- C2 amended: in the Idle state an explicit trigger cancels the current
idle timer and returns to Idle with a fresh timer without running a flush;
any burst of triggers runs no flush at all; a flush runs exactly when the
idle timer expires. -/
theorem flushTrigger_resets_timer (pre rest : List FlushEvent)
    (hpre : ∀ e ∈ pre, e = FlushEvent.trigger) :
    (flushLoopIter FlushEvent.trigger).timerStopped = true ∧
    (flushLoopIter FlushEvent.trigger).flushed = false ∧
    (flushLoopIter FlushEvent.trigger).continues = true ∧
    flushLoopRun (pre ++ rest) = flushLoopRun rest ∧
    (flushLoopIter FlushEvent.timerExpired).flushed = true := by
  refine ⟨rfl, rfl, rfl, ?_, rfl⟩
  induction pre with
  | nil => rfl
  | cons e pre ih =>
    have he := hpre e (by simp)
    have hrest : ∀ x ∈ pre, x = FlushEvent.trigger := fun x hx => hpre x (by simp [hx])
    simp [he, flushLoopRun, ih hrest]

/-- Witness for C2 amended: two triggers followed by a timer expiry and a
stop request run exactly the one timer-driven flush. -/
theorem flushTrigger_resets_timer_witness :
    (flushLoopIter FlushEvent.trigger).timerStopped = true ∧
    (flushLoopIter FlushEvent.trigger).flushed = false ∧
    (flushLoopIter FlushEvent.trigger).continues = true ∧
    flushLoopRun ([FlushEvent.trigger, FlushEvent.trigger]
      ++ [FlushEvent.timerExpired, FlushEvent.stopRequested])
      = flushLoopRun [FlushEvent.timerExpired, FlushEvent.stopRequested] ∧
    (flushLoopIter FlushEvent.timerExpired).flushed = true :=
  flushTrigger_resets_timer [FlushEvent.trigger, FlushEvent.trigger]
    [FlushEvent.timerExpired, FlushEvent.stopRequested] (by decide)

/-! ## C6: conflict backoff in editZone -/

/-- C6: a submission runs of open-zone-edit conflicts are retried without
bound, sleeping one poll interval each time and surfacing no error (after
n conflict responses the loop is still retrying, having slept n times);
the first non-201 response with any other code terminally fails the
zone's batch submission. -/
theorem editZone_conflict (n : Nat) (e e2 : ZoneEditErr) (rest : List EditPostResp)
    (h1 : e.Code = "OPEN_ZONE_EDITS") (h2 : e2.Code ≠ "OPEN_ZONE_EDITS") :
    editZone (List.replicate n (.non201 (some e))) = .retrying n ∧
    editZone (List.replicate n (.non201 (some e)) ++ .non201 (some e2) :: rest)
      = .failed "request returned unsuccessful status code" := by
  induction n with
  | zero =>
    refine ⟨rfl, ?_⟩
    simp [editZone, h2]
  | succ n ih =>
    obtain ⟨ih1, ih2⟩ := ih
    constructor
    · simp [List.replicate_succ, editZone, h1, ih1]
    · simp [List.replicate_succ, editZone, h1, ih2]

/-- Witness for C6: two conflicts leave the loop retrying with two sleeps;
two conflicts followed by a BAD_REQUEST response fail terminally. -/
theorem editZone_conflict_witness :
    editZone (List.replicate 2 (.non201 (some errOpen))) = .retrying 2 ∧
    editZone (List.replicate 2 (.non201 (some errOpen)) ++ .non201 (some errOther) :: [])
      = .failed "request returned unsuccessful status code" :=
  editZone_conflict 2 errOpen errOther [] rfl (by decide)

/-! ## C3: a FAILED edit is terminal whatever cancellation does -/

/-- C3: whenever the completion poll observes backend status FAILED (after
any prefix of non-terminal statuses), waitForZoneEdits attempts to cancel
the open edit and returns a terminal error, whatever the backend answers
to the cancellation; in particular a successful cancellation never turns
the failed edit into an ok return. -/
theorem waitForZoneEdits_failed_terminal (cr : CancelResp) (pre : List String)
    (rest : List PollResp)
    (hpre : ∀ s ∈ pre, s ≠ "COMPLETED" ∧ s ≠ "FAILED") :
    ∃ msg, waitForZoneEdits cr (pre.map PollResp.statusVal ++ PollResp.statusVal "FAILED" :: rest)
      = .done (.error msg) true := by
  induction pre with
  | nil =>
    cases hc : cancelZoneEdit cr with
    | error ce =>
      exact ⟨"zone edits returned status FAILED: failed to cancel zone edits: " ++ ce,
        by simp [waitForZoneEdits, hc]⟩
    | ok u =>
      exact ⟨"zone edits returned status FAILED: successfully canceled zone edits",
        by simp [waitForZoneEdits, hc]⟩
  | cons s pre ih =>
    have hs := hpre s (by simp)
    have hrest : ∀ x ∈ pre, x ≠ "COMPLETED" ∧ x ≠ "FAILED" :=
      fun x hx => hpre x (by simp [hx])
    obtain ⟨msg, hmsg⟩ := ih hrest
    exact ⟨msg, by simp [waitForZoneEdits, hs.1, hs.2, hmsg]⟩

/-- Witness for C3: one PENDING poll, then FAILED, with a cancellation the
backend accepts with 204: the loop still reports a terminal error and
records the cancellation attempt. -/
theorem waitForZoneEdits_failed_terminal_witness :
    ∃ msg, waitForZoneEdits CancelResp.noContent204
      (["PENDING"].map PollResp.statusVal ++ PollResp.statusVal "FAILED" :: [])
      = .done (.error msg) true :=
  waitForZoneEdits_failed_terminal CancelResp.noContent204 ["PENDING"] [] (by decide)

/-! ## C1: at-most-once delivery -/

/-- Helper: an entry kept by a delivery sweep was in the map before. -/
theorem sweep_kept_sub {p : String → Bool} {m : ChanMap} {q : String × Slot}
    (h : q ∈ (sweepDeliver p m).1) : q ∈ m :=
  (List.mem_filter.mp h).1

/-- Helper: a slot retired by a delivery sweep is the once-written, closed
version of an entry of the map. -/
theorem sweep_retired_spec {p : String → Bool} {m : ChanMap} {s : Slot}
    (h : s ∈ (sweepDeliver p m).2) : ∃ q ∈ m, s = ⟨q.2.writes + 1, true⟩ := by
  simp only [sweepDeliver, List.mem_map, List.mem_filter] at h
  obtain ⟨q, ⟨hq, _⟩, rfl⟩ := h
  exact ⟨q, hq, rfl⟩

/-- Helper: a delivery sweep on the error map preserves the router
invariant. -/
theorem routerInv_error_sweep (st : RouterState) (p : String → Bool)
    (h : RouterInv st) :
    RouterInv ⟨st.returnChans, (sweepDeliver p st.errorChans).1,
      (sweepDeliver p st.errorChans).2 ++ st.retiredSlots⟩ := by
  obtain ⟨hr, he, hret⟩ := h
  refine ⟨hr, ?_, ?_⟩
  · intro q hq
    exact he q (sweep_kept_sub hq)
  · intro s hs
    rcases List.mem_append.mp hs with h1 | h1
    · obtain ⟨q, hq, rfl⟩ := sweep_retired_spec h1
      have h0 := (he q hq).1
      simp [h0]
    · exact hret s h1

/-- Helper: a delivery sweep on the return map preserves the router
invariant. -/
theorem routerInv_return_sweep (st : RouterState) (p : String → Bool)
    (h : RouterInv st) :
    RouterInv ⟨(sweepDeliver p st.returnChans).1, st.errorChans,
      (sweepDeliver p st.returnChans).2 ++ st.retiredSlots⟩ := by
  obtain ⟨hr, he, hret⟩ := h
  refine ⟨?_, he, ?_⟩
  · intro q hq
    exact hr q (sweep_kept_sub hq)
  · intro s hs
    rcases List.mem_append.mp hs with h1 | h1
    · obtain ⟨q, hq, rfl⟩ := sweep_retired_spec h1
      have h0 := (hr q hq).1
      simp [h0]
    · exact hret s h1

/-- Helper: every routing operation preserves the router invariant. -/
theorem routerInv_apply (st : RouterState) (op : RouterOp) (h : RouterInv st) :
    RouterInv (applyRouterOp st op) := by
  obtain ⟨hr, he, hret⟩ := h
  cases op with
  | enqueueChans id =>
    refine ⟨?_, ?_, ?_⟩
    · intro q hq
      rcases List.mem_cons.mp hq with rfl | h1
      · exact ⟨rfl, rfl⟩
      · exact hr q (List.mem_filter.mp h1).1
    · intro q hq
      rcases List.mem_cons.mp hq with rfl | h1
      · exact ⟨rfl, rfl⟩
      · exact he q (List.mem_filter.mp h1).1
    · intro s hs
      rcases List.mem_append.mp hs with h12 | h3
      · rcases List.mem_append.mp h12 with h1 | h2
        · obtain ⟨q, hq, rfl⟩ := List.mem_map.mp h1
          have h0 := (hr q (List.mem_filter.mp hq).1).1
          simp [h0]
        · obtain ⟨q, hq, rfl⟩ := List.mem_map.mp h2
          have h0 := (he q (List.mem_filter.mp hq).1).1
          simp [h0]
      · exact hret s h3
  | returnRecordOp id => exact routerInv_return_sweep st _ ⟨hr, he, hret⟩
  | returnErrorOp id => exact routerInv_error_sweep st _ ⟨hr, he, hret⟩
  | returnErrorToZoneOp zone => exact routerInv_error_sweep st _ ⟨hr, he, hret⟩
  | returnErrorToZoneTypeOp zone recordType =>
    exact routerInv_error_sweep st _ ⟨hr, he, hret⟩
  | clearOp =>
    refine ⟨?_, ?_, ?_⟩
    · intro q hq
      simp [applyRouterOp] at hq
    · intro q hq
      simp [applyRouterOp] at hq
    · intro s hs
      rcases List.mem_append.mp hs with h12 | h3
      · rcases List.mem_append.mp h12 with h1 | h2
        · obtain ⟨q, hq, rfl⟩ := List.mem_map.mp h1
          have h0 := (hr q hq).1
          simp [h0]
        · obtain ⟨q, hq, rfl⟩ := List.mem_map.mp h2
          have h0 := (he q hq).1
          simp [h0]
      · exact hret s h3

/-- C1 counterexample: the claim also asserts that a slot is removed from
its map before being written to; returnErrorByIdWithoutLock (and hence
returnError and the zone fan-outs built on it) sends on the error channel
first and deletes the map entry afterwards, so the claimed order fails for
the error-delivery helper on a registered id. -/
theorem returnErrorById_writes_before_removing :
    ¬ removedBeforeWritten returnErrorByIdEvents := by
  unfold removedBeforeWritten
  decide

/-- C1 amended: across any sequence of routing operations from the fresh
state, every result or error slot is written to at most once and a written
slot is closed — slots still registered are unwritten and open, and every
slot that ever left the maps was written at most once and closed if
written. returnRecord does remove a slot from its map before writing it,
and both helpers close after writing; returnErrorByIdWithoutLock instead
writes before removing, but runs under the routing mutex, so delivery
remains at most once. -/
theorem atMostOnce_delivery (ops : List RouterOp) :
    RouterInv (runRouter initRouterState ops) ∧
    removedBeforeWritten returnRecordEvents ∧
    closedAfterWritten returnRecordEvents ∧
    closedAfterWritten returnErrorByIdEvents := by
  refine ⟨?_, by unfold removedBeforeWritten; decide, by unfold closedAfterWritten; decide,
    by unfold closedAfterWritten; decide⟩
  have hstep : ∀ (l : List RouterOp) (st : RouterState),
      RouterInv st → RouterInv (runRouter st l) := by
    intro l
    induction l with
    | nil => intro st h; exact h
    | cons op rest ih => intro st h; exact ih _ (routerInv_apply st op h)
  refine hstep ops initRouterState ⟨?_, ?_, ?_⟩ <;> intro x hx <;> simp [initRouterState] at hx

/-! ## C7: zone-fault isolation of the error fan-outs -/

/-- Helper: splitting a string that starts with a separator-free prefix
followed by the separator yields that prefix as the first field. -/
theorem goSplitChars_append (sep : Char) (l w : List Char) (h : sep ∉ l) :
    goSplitChars sep (l ++ sep :: w) = l :: goSplitChars sep w := by
  induction l with
  | nil => simp [goSplitChars]
  | cons c l ih =>
    have hc : c ≠ sep := by
      intro hh
      exact h (by simp [hh])
    have hl : sep ∉ l := by
      intro hh
      exact h (by simp [hh])
    show goSplitChars sep (c :: (l ++ sep :: w)) = (c :: l) :: goSplitChars sep w
    rw [goSplitChars, if_neg hc, ih hl]

/-- Helper: the character data of a correlation id built by genId. -/
theorem genId_data (z t k v : String) :
    (genId z t k v).data = z.data ++ ':' :: (t.data ++ ':' :: (k.data ++ ':' :: v.data)) := by
  have hcolon : (":" : String).data = [':'] := rfl
  simp [genId, String.data_append, hcolon]

/-- Helper: the first colon-field of a genId id is its zone, provided the
zone name contains no colon. -/
theorem idPart0_genId (z t k v : String) (hz : ':' ∉ z.data) :
    idPart0 (genId z t k v) = z := by
  unfold idPart0 goSplit
  rw [genId_data, goSplitChars_append ':' z.data _ hz]
  simp

/-- Helper: the second colon-field of a genId id is its record type,
provided the zone name and record type contain no colon. -/
theorem idPart1_genId (z t k v : String) (hz : ':' ∉ z.data) (ht : ':' ∉ t.data) :
    idPart1 (genId z t k v) = t := by
  unfold idPart1 goSplit
  rw [genId_data, goSplitChars_append ':' z.data _ hz, goSplitChars_append ':' t.data _ ht]
  simp

/-- C7: when zone Z's batch fails, the zone fan-out delivers the error
exactly to the pending requests whose correlation key's zone is Z — each
such slot is written once, closed and removed from the error map — and
leaves every pending request of any other zone registered, with its slot
unchanged, and the whole return map untouched; the zone-and-type fan-out
behaves the same on the (zone, record type) pair. Zone names and record
types are assumed colon-free, as the colon is the id separator. -/
theorem returnErrorToZone_frame (st : RouterState) (Z T z t k v : String) (slot : Slot)
    (hz : ':' ∉ z.data) (ht : ':' ∉ t.data)
    (hmem : (genId z t k v, slot) ∈ st.errorChans) :
    (z = Z →
      Slot.mk (slot.writes + 1) true
          ∈ (applyRouterOp st (.returnErrorToZoneOp Z)).retiredSlots ∧
      ∀ s, (genId z t k v, s) ∉ (applyRouterOp st (.returnErrorToZoneOp Z)).errorChans) ∧
    (z ≠ Z →
      (genId z t k v, slot) ∈ (applyRouterOp st (.returnErrorToZoneOp Z)).errorChans ∧
      (applyRouterOp st (.returnErrorToZoneOp Z)).returnChans = st.returnChans) ∧
    (z = Z ∧ t = T →
      Slot.mk (slot.writes + 1) true
          ∈ (applyRouterOp st (.returnErrorToZoneTypeOp Z T)).retiredSlots ∧
      ∀ s, (genId z t k v, s) ∉ (applyRouterOp st (.returnErrorToZoneTypeOp Z T)).errorChans) ∧
    (¬(z = Z ∧ t = T) →
      (genId z t k v, slot) ∈ (applyRouterOp st (.returnErrorToZoneTypeOp Z T)).errorChans ∧
      (applyRouterOp st (.returnErrorToZoneTypeOp Z T)).returnChans = st.returnChans) := by
  have h0 : idPart0 (genId z t k v) = z := idPart0_genId z t k v hz
  have h1 : idPart1 (genId z t k v) = t := idPart1_genId z t k v hz ht
  refine ⟨?_, ?_, ?_, ?_⟩
  · intro hzZ
    subst hzZ
    constructor
    · simp only [applyRouterOp, sweepDeliver]
      apply List.mem_append_left
      refine List.mem_map.mpr ⟨(genId z t k v, slot), ?_, rfl⟩
      exact List.mem_filter.mpr ⟨hmem, by simp [h0]⟩
    · intro s hs
      simp only [applyRouterOp, sweepDeliver] at hs
      have hcond := (List.mem_filter.mp hs).2
      simp [h0] at hcond
  · intro hzZ
    refine ⟨?_, rfl⟩
    simp only [applyRouterOp, sweepDeliver]
    exact List.mem_filter.mpr ⟨hmem, by simp [h0, hzZ]⟩
  · rintro ⟨hzZ, htT⟩
    subst hzZ
    subst htT
    constructor
    · simp only [applyRouterOp, sweepDeliver]
      apply List.mem_append_left
      refine List.mem_map.mpr ⟨(genId z t k v, slot), ?_, rfl⟩
      exact List.mem_filter.mpr ⟨hmem, by simp [h0, h1]⟩
    · intro s hs
      simp only [applyRouterOp, sweepDeliver] at hs
      have hcond := (List.mem_filter.mp hs).2
      simp [h0, h1] at hcond
  · intro hne
    refine ⟨?_, rfl⟩
    simp only [applyRouterOp, sweepDeliver]
    refine List.mem_filter.mpr ⟨hmem, ?_⟩
    simp only [h0, h1]
    rcases not_and_or.mp hne with hh | hh <;> simp [hh]

/-- Witness for C7 at the concrete router state stC7, failing zone
example.com while other.org has a pending request. -/
theorem returnErrorToZone_frame_witness :
    ("other.org" ≠ "example.com") ∧
    ((("other.org" : String) = "example.com" →
      Slot.mk (freshSlot.writes + 1) true
          ∈ (applyRouterOp stC7 (.returnErrorToZoneOp "example.com")).retiredSlots ∧
      ∀ s, (genId "other.org" "TXT" "b" "x", s)
          ∉ (applyRouterOp stC7 (.returnErrorToZoneOp "example.com")).errorChans) ∧
    (("other.org" : String) ≠ "example.com" →
      (genId "other.org" "TXT" "b" "x", freshSlot)
          ∈ (applyRouterOp stC7 (.returnErrorToZoneOp "example.com")).errorChans ∧
      (applyRouterOp stC7 (.returnErrorToZoneOp "example.com")).returnChans
        = stC7.returnChans) ∧
    (("other.org" : String) = "example.com" ∧ ("TXT" : String) = "A" →
      Slot.mk (freshSlot.writes + 1) true
          ∈ (applyRouterOp stC7 (.returnErrorToZoneTypeOp "example.com" "A")).retiredSlots ∧
      ∀ s, (genId "other.org" "TXT" "b" "x", s)
          ∉ (applyRouterOp stC7 (.returnErrorToZoneTypeOp "example.com" "A")).errorChans) ∧
    (¬(("other.org" : String) = "example.com" ∧ ("TXT" : String) = "A") →
      (genId "other.org" "TXT" "b" "x", freshSlot)
          ∈ (applyRouterOp stC7 (.returnErrorToZoneTypeOp "example.com" "A")).errorChans ∧
      (applyRouterOp stC7 (.returnErrorToZoneTypeOp "example.com" "A")).returnChans
        = stC7.returnChans)) :=
  ⟨by decide,
   returnErrorToZone_frame stC7 "example.com" "A" "other.org" "TXT" "b" "x" freshSlot
     (by decide) (by decide) (by simp [stC7, idOther])⟩

/-! ## C5: per-type routing after a successful zone edit -/

/-- Helper: an entry of the map GetRecordsByKeys builds comes from a
record of the list whose key it carries, and that key is wanted. -/
theorem getRecordsByKeys_mem (records : List ZoneRecord) (keys : List String)
    (k : String) (r : ZoneRecord) (h : (k, r) ∈ GetRecordsByKeys records keys) :
    r ∈ records ∧ r.Key = k ∧ keys.contains k = true := by
  have haux : ∀ (l : List ZoneRecord) (acc : List (String × ZoneRecord)),
      (k, r) ∈ l.foldl (insertRecord keys) acc →
      ((k, r) ∈ acc ∨ (r ∈ l ∧ r.Key = k ∧ keys.contains k = true)) := by
    intro l
    induction l with
    | nil => intro acc hh; exact Or.inl hh
    | cons rc rest ih =>
      intro acc hh
      rcases ih (insertRecord keys acc rc) hh with h1 | h1
      · unfold insertRecord at h1
        by_cases hc : keys.contains rc.Key = true
        · rw [if_pos hc] at h1
          rcases List.mem_cons.mp h1 with h2 | h2
          · have hk : k = rc.Key := congrArg Prod.fst h2
            have hr : r = rc := congrArg Prod.snd h2
            refine Or.inr ⟨?_, ?_, ?_⟩
            · rw [hr]
              exact List.mem_cons_self rc rest
            · rw [hr, hk]
            · rw [hk]
              exact hc
          · exact Or.inl (List.mem_filter.mp h2).1
        · rw [if_neg hc] at h1
          exact Or.inl h1
      · exact Or.inr ⟨List.mem_cons_of_mem rc h1.1, h1.2⟩
  rcases haux records [] h with h1 | h1
  · simp at h1
  · exact h1

/-- Helper: a wanted key that some record of the list carries ends up
bound in the map GetRecordsByKeys builds, to some record of the list with
that key. -/
theorem getRecordsByKeys_exists (records : List ZoneRecord) (keys : List String)
    (key : String) (hk : keys.contains key = true)
    (hr : ∃ r ∈ records, r.Key = key) :
    ∃ rc, rc ∈ records ∧ rc.Key = key ∧ (key, rc) ∈ GetRecordsByKeys records keys := by
  have haux : ∀ (l : List ZoneRecord) (acc : List (String × ZoneRecord)),
      (∀ x ∈ l, x ∈ records) →
      ((∃ rc, rc ∈ records ∧ rc.Key = key ∧ (key, rc) ∈ acc) ∨ (∃ r ∈ l, r.Key = key)) →
      ∃ rc, rc ∈ records ∧ rc.Key = key ∧ (key, rc) ∈ l.foldl (insertRecord keys) acc := by
    intro l
    induction l with
    | nil =>
      intro acc _ hdisj
      rcases hdisj with h1 | h1
      · exact h1
      · simp at h1
    | cons rc rest ih =>
      intro acc hsub hdisj
      apply ih
      · intro x hx
        exact hsub x (List.mem_cons_of_mem rc hx)
      by_cases hrec : rc.Key = key
      · left
        refine ⟨rc, hsub rc (List.mem_cons_self rc rest), hrec, ?_⟩
        unfold insertRecord
        rw [hrec, if_pos hk]
        exact List.mem_cons_self _ _
      · rcases hdisj with h1 | h1
        · obtain ⟨rec0, h0mem, h0key, h0acc⟩ := h1
          left
          refine ⟨rec0, h0mem, h0key, ?_⟩
          unfold insertRecord
          by_cases hc : keys.contains rc.Key = true
          · rw [if_pos hc]
            apply List.mem_cons_of_mem
            refine List.mem_filter.mpr ⟨h0acc, ?_⟩
            simp
            intro hh
            exact hrec (hh ▸ rfl)
          · rw [if_neg hc]
            exact h0acc
        · obtain ⟨r, hrmem, hrkey⟩ := h1
          rcases List.mem_cons.mp hrmem with h2 | h2
          · exact absurd (h2 ▸ hrkey) hrec
          · exact Or.inr ⟨r, h2, hrkey⟩
  exact haux records [] (fun x hx => hx) (Or.inr hr)

/-- C5 counterexample: with the supported type A, a fetched zone holding
only the record with key a, and affected keys a and b, the per-type
routing delivers only to key a: the key b, missing from the fetched zone,
receives no delivery of any kind (no record, no lookup-failure error, no
type-wide error), contradicting the claim that a missing key is never
silently skipped. -/
theorem missingKey_silently_skipped :
    ¬ everyAffectedKeyResolved "example.com" "A" (some [recA]) ["a", "b"] := by
  unfold everyAffectedKeyResolved
  decide

/-- C5 amended: after a successful zone edit, the per-type routing
delivers, for each affected key, the record found for it in the freshly
fetched zone when one exists; when the record type is unsupported it fans
the unsupported record type error to the zone and type (reaching every
affected key of the type); but an affected key missing from the fetched
zone of a supported type receives no delivery from this loop at all — its
slot is left to the end-of-flush defensive cleanup. -/
theorem routeRecordsForType_amended (zoneName recordType : String)
    (records : List ZoneRecord) (keys : List String) (key : String)
    (hk : key ∈ keys) :
    ((routeRecordsForType zoneName recordType none keys).any (resolvesKey key) = true) ∧
    ((∃ r ∈ records, r.Key = key) →
      ∃ rc, rc ∈ records ∧ rc.Key = key ∧
        Delivery.record zoneName recordType key rc.Value (some rc)
          ∈ routeRecordsForType zoneName recordType (some records) keys) ∧
    ((∀ r ∈ records, r.Key ≠ key) →
      ∀ d ∈ routeRecordsForType zoneName recordType (some records) keys,
        resolvesKey key d = false) := by
  refine ⟨by simp [routeRecordsForType, resolvesKey], ?_, ?_⟩
  · intro hex
    obtain ⟨rc, h1, h2, h3⟩ :=
      getRecordsByKeys_exists records keys key (by simpa using hk) hex
    refine ⟨rc, h1, h2, ?_⟩
    simp only [routeRecordsForType]
    exact List.mem_map.mpr ⟨(key, rc), h3, rfl⟩
  · intro hnone d hd
    simp only [routeRecordsForType] at hd
    obtain ⟨⟨k, r⟩, hkr, rfl⟩ := List.mem_map.mp hd
    obtain ⟨hrmem, hrkey, _⟩ := getRecordsByKeys_mem records keys k r hkr
    have hne : k ≠ key := fun hh => hnone r hrmem (hrkey.trans hh)
    simp [resolvesKey, hne]

/-- Witness for C5 amended at the concrete zone records [recA] and keys
[a, b]: key a, present, gets its record delivered; key b has no record and
the missing-key branch applies vacuously to the delivered list. -/
theorem routeRecordsForType_amended_witness :
    ((routeRecordsForType "example.com" "A" none ["a", "b"]).any (resolvesKey "a") = true) ∧
    ((∃ r ∈ [recA], r.Key = "a") →
      ∃ rc, rc ∈ [recA] ∧ rc.Key = "a" ∧
        Delivery.record "example.com" "A" "a" rc.Value (some rc)
          ∈ routeRecordsForType "example.com" "A" (some [recA]) ["a", "b"]) ∧
    ((∀ r ∈ [recA], r.Key ≠ "a") →
      ∀ d ∈ routeRecordsForType "example.com" "A" (some [recA]) ["a", "b"],
        resolvesKey "a" d = false) :=
  routeRecordsForType_amended "example.com" "A" [recA] ["a", "b"] "a" (by decide)

/-! ## C9: the defensive cleanup at the end of a flush -/

/-- C9: at the end of every flush (after whatever deliveries the flush
logic performed), the deferred clear empties the action queue and both
channel maps and closes every slot the deliveries left unresolved, so no
caller stays registered; and a caller of PerformRecordAction whose channel
is closed without a value returns a descriptive channel-closed error
rather than blocking forever. -/
theorem flush_cleanup (st : ClientState) (ops : List RouterOp) (p : RecordAction)
    (q : String × Slot)
    (hq : q ∈ (runRouter st.chans ops).returnChans ∨
          q ∈ (runRouter st.chans ops).errorChans) :
    (flushWith st ops).recordActionQueue = [] ∧
    (flushWith st ops).chans.returnChans = [] ∧
    (flushWith st ops).chans.errorChans = [] ∧
    Slot.mk q.2.writes true ∈ (flushWith st ops).chans.retiredSlots ∧
    (∃ msg, PerformRecordAction p PerformEvent.returnChanClosed = .error msg) ∧
    (∃ msg, PerformRecordAction p PerformEvent.errorChanClosed = .error msg) := by
  refine ⟨rfl, rfl, rfl, ?_, ⟨_, rfl⟩, ⟨_, rfl⟩⟩
  show Slot.mk q.2.writes true
    ∈ (applyRouterOp (runRouter st.chans ops) .clearOp).retiredSlots
  simp only [applyRouterOp]
  rcases hq with h | h
  · exact List.mem_append_left _ (List.mem_append_left _ (List.mem_map.mpr ⟨q, h, rfl⟩))
  · exact List.mem_append_left _ (List.mem_append_right _ (List.mem_map.mpr ⟨q, h, rfl⟩))

/-- Witness for C9 at the concrete client state stW with one registered
pending request and an empty delivery sequence. -/
theorem flush_cleanup_witness :
    (flushWith stW []).recordActionQueue = [] ∧
    (flushWith stW []).chans.returnChans = [] ∧
    (flushWith stW []).chans.errorChans = [] ∧
    Slot.mk freshSlot.writes true ∈ (flushWith stW []).chans.retiredSlots ∧
    (∃ msg, PerformRecordAction raW PerformEvent.returnChanClosed = .error msg) ∧
    (∃ msg, PerformRecordAction raW PerformEvent.errorChanClosed = .error msg) :=
  flush_cleanup stW [] raW (idW, freshSlot) (Or.inl (by simp [stW, runRouter]))
